import Mathlib

/-!
# SanatAi — shallow embedding and verification of the
# classification-and-prioritization pipeline

This file embeds the core of the SanatAi productivity bot in Lean 4:

* `src/src/db.py` — the storage layer (tasks/ideas/notes scoped by user),
* `src/src/ai/classifier.py` — the classification adapter,
* `src/src/ai/task_analysis.py` — the task-scoring adapter,
* `src/src/bot.py` — the classification pipeline and command handlers,
* `src/src/services/suggestions.py` — the suggestion engine.

External effects are made explicit parameters: the two AI-oracle calls
become input values describing the oracle's observable outcome, the SQLite
store becomes an in-memory `Store` value threaded through the operations,
and "today" (`_budapest_today`) is an explicit `Date` argument.  Python
dynamic values flowing out of `json.loads` are modelled by the `Json`
inductive; Python string operations (`strip`, `split`, `join`, slicing)
are modelled character-exactly on `List Char`.
-/

set_option linter.unusedVariables false

namespace SanatAi

/-! ## JSON values (results of `json.loads`)

Per the oracle response schemas in `classifier.py` / `task_analysis.py`,
numbers are integers; we therefore model JSON numbers as `Int`. -/

inductive Json where
  | null
  | bool (b : Bool)
  | int (n : Int)
  | str (s : String)
  | arr (xs : List Json)
  | obj (kvs : List (String × Json))
deriving Repr, Inhabited

/-- Key lookup in a parsed JSON object (`dict.get`). -/
def jget (kvs : List (String × Json)) (k : String) : Option Json :=
  (kvs.find? (fun p => p.1 = k)).map (·.2)

/-- Python truthiness of a JSON value (`bool(x)`). -/
def jTruthy : Json → Bool
  | .null => false
  | .bool b => b
  | .int n => n != 0
  | .str s => s != ""
  | .arr xs => !xs.isEmpty
  | .obj kvs => !kvs.isEmpty

/-! ## Python string primitives, character-exact on `List Char` -/

/-- `str.lstrip()` at character level. -/
def lstripChars (cs : List Char) : List Char :=
  cs.dropWhile Char.isWhitespace

/-- `str.rstrip()` at character level. -/
def rstripChars (cs : List Char) : List Char :=
  (cs.reverse.dropWhile Char.isWhitespace).reverse

/-- `str.strip()` at character level. -/
def stripChars (cs : List Char) : List Char :=
  rstripChars (lstripChars cs)

/-- `str.strip()`. -/
def pyStrip (s : String) : String := ⟨stripChars s.data⟩

/-- `str.rstrip()`. -/
def pyRstrip (s : String) : String := ⟨rstripChars s.data⟩

/-- `s[:n]` — the first `n` characters of a Python string. -/
def pyTake (s : String) (n : Nat) : String := ⟨s.data.take n⟩

/-- `str.split(",")` at character level: `"" ↦ [""]`, separators kept empty. -/
def splitCommaChars : List Char → List (List Char)
  | [] => [[]]
  | c :: rest =>
    if c = ',' then [] :: splitCommaChars rest
    else
      match splitCommaChars rest with
      | [] => [[c]]
      | p :: ps => (c :: p) :: ps

/-- `s.split(",")`. -/
def pySplitComma (s : String) : List String :=
  (splitCommaChars s.data).map (⟨·⟩)

/-- `",".join(xs)` at character level. -/
def joinCommaChars : List (List Char) → List Char
  | [] => []
  | [p] => p
  | p :: ps => p ++ ',' :: joinCommaChars ps

/-- `",".join(xs)`. -/
def joinComma (xs : List String) : String :=
  ⟨joinCommaChars (xs.map String.data)⟩

/-- `int(s)` on a Python string: optional surrounding whitespace,
optional sign, then a non-empty digit run. -/
def parseIntChars (cs : List Char) : Option Int :=
  let cs := stripChars cs
  let (sign, digits) : Int × List Char :=
    match cs with
    | '-' :: rest => (-1, rest)
    | '+' :: rest => (1, rest)
    | rest => (1, rest)
  if digits.isEmpty || !digits.all Char.isDigit then none
  else some (sign * (digits.foldl (fun acc c => acc * 10 + (c.toNat - '0'.toNat)) 0 : Nat))

/-- `str(x)` on a JSON value (only scalar cases are reachable from the
modelled code paths; containers get a `repr`-style rendering). -/
def pyStr : Json → String
  | .null => "None"
  | .bool b => if b then "True" else "False"
  | .int n => toString n
  | .str s => s
  | .arr _ => "[...]"
  | .obj _ => "{...}"

/-- `int(x)` coercion used by `_to_int` / `_clamp_score`:
ints pass through, bools become 0/1, numeric strings parse,
everything else raises (`none`). -/
def pyToInt : Json → Option Int
  | .int n => some n
  | .bool b => some (if b then 1 else 0)
  | .str s => parseIntChars s.data
  | _ => none

/-- `x or y` for an optional JSON value against a string default, with the
result coerced to `String` (the oracle schema makes these fields strings). -/
def pyOrStr (v : Option Json) (default : String) : String :=
  match v with
  | some j => if jTruthy j then pyStr j else default
  | none => default

/-! ## A small `json.loads` for the JSON-array branch of `_prepare_tags`

`bot._prepare_tags` tries `json.loads` on strings that start with `[`.
We model that with a fueled recursive-descent reader covering the value
shapes of the modelled envelope (strings, integers, booleans, null,
arrays, objects). -/

/-- Leading-whitespace skip between JSON tokens. -/
def skipWs (cs : List Char) : List Char := cs.dropWhile Char.isWhitespace

/-- A JSON string literal body (after the opening quote), with the common
escapes. -/
def readJsonStrLit : List Char → List Char → Option (String × List Char)
  | [], _ => none
  | '"' :: rest, acc => some (⟨acc.reverse⟩, rest)
  | '\\' :: c :: rest, acc =>
    readJsonStrLit rest ((if c = 'n' then '\n' else if c = 't' then '\t' else c) :: acc)
  | c :: rest, acc => readJsonStrLit rest (c :: acc)

/-- A JSON integer literal. -/
def readJsonInt (cs : List Char) : Option (Json × List Char) :=
  let (sign, cs') : Int × List Char :=
    match cs with
    | '-' :: rest => (-1, rest)
    | rest => (1, rest)
  let digits := cs'.takeWhile Char.isDigit
  let rest := cs'.dropWhile Char.isDigit
  if digits.isEmpty then none
  else some (.int (sign * (digits.foldl (fun acc c => acc * 10 + (c.toNat - '0'.toNat)) 0 : Nat)), rest)

mutual

def readJsonValue (fuel : Nat) (cs : List Char) : Option (Json × List Char) :=
  match fuel with
  | 0 => none
  | fuel + 1 =>
    match skipWs cs with
    | 'n' :: 'u' :: 'l' :: 'l' :: rest => some (.null, rest)
    | 't' :: 'r' :: 'u' :: 'e' :: rest => some (.bool true, rest)
    | 'f' :: 'a' :: 'l' :: 's' :: 'e' :: rest => some (.bool false, rest)
    | '"' :: rest => (readJsonStrLit rest []).map fun p => (.str p.1, p.2)
    | '[' :: rest =>
      match skipWs rest with
      | ']' :: rest2 => some (.arr [], rest2)
      | _ => (readJsonElems fuel rest).map fun p => (.arr p.1, p.2)
    | '{' :: rest =>
      match skipWs rest with
      | '}' :: rest2 => some (.obj [], rest2)
      | _ => (readJsonMembers fuel rest).map fun p => (.obj p.1, p.2)
    | other => readJsonInt other

def readJsonElems (fuel : Nat) (cs : List Char) : Option (List Json × List Char) :=
  match fuel with
  | 0 => none
  | fuel + 1 =>
    match readJsonValue fuel cs with
    | none => none
    | some (v, rest) =>
      match skipWs rest with
      | ',' :: rest2 => (readJsonElems fuel rest2).map fun p => (v :: p.1, p.2)
      | ']' :: rest2 => some ([v], rest2)
      | _ => none

def readJsonMembers (fuel : Nat) (cs : List Char) : Option (List (String × Json) × List Char) :=
  match fuel with
  | 0 => none
  | fuel + 1 =>
    match skipWs cs with
    | '"' :: rest =>
      match readJsonStrLit rest [] with
      | none => none
      | some (k, rest2) =>
        match skipWs rest2 with
        | ':' :: rest3 =>
          match readJsonValue fuel rest3 with
          | none => none
          | some (v, rest4) =>
            match skipWs rest4 with
            | ',' :: rest5 => (readJsonMembers fuel rest5).map fun p => ((k, v) :: p.1, p.2)
            | '}' :: rest5 => some ([(k, v)], rest5)
            | _ => none
        | _ => none
    | _ => none

end

/-- `json.loads` on a whole string: one value, nothing but whitespace after. -/
def jsonLoads (s : String) : Option Json :=
  match readJsonValue (s.data.length + 1) s.data with
  | some (v, rest) => if (skipWs rest).isEmpty then some v else none
  | none => none

/-! ## Tag normalization — `bot._prepare_tags` and `db._normalize_tags` -/

/-- The iterable branch of `_prepare_tags`: skip `None`, stringify and trim
each element, drop empties; `cleaned or None`. -/
def cleanTagList (xs : List Json) : Option (List String) :=
  let cleaned := xs.filterMap fun t =>
    match t with
    | .null => none
    | t =>
      let cleanedTag := pyStrip (pyStr t)
      if cleanedTag = "" then none else some cleanedTag
  if cleaned.isEmpty then none else some cleaned

/-- The scalar branch of `_prepare_tags`. -/
def scalarTag (j : Json) : Option (List String) :=
  let cleanedValue := pyStrip (pyStr j)
  if cleanedValue = "" then none else some [cleanedValue]

/-- `bot._prepare_tags`: `None ↦ None`; strings are tried as a JSON array
first (when they start with `[`), otherwise split on commas with each
piece trimmed and empties dropped; iterables (lists, and dicts iterating
their keys) are cleaned elementwise; other scalars become singletons. -/
def prepareTags : Json → Option (List String)
  | .null => none
  | .str s =>
    let maybeJson := pyStrip s
    match (if maybeJson.data.head? = some '[' then jsonLoads maybeJson else none) with
    | some (.arr xs) => cleanTagList xs
    | _ => some (((pySplitComma s).map pyStrip).filter (· ≠ ""))
  | .arr xs => cleanTagList xs
  | .obj kvs => cleanTagList (kvs.map (fun p => .str p.1))
  | .bool b => scalarTag (.bool b)
  | .int n => scalarTag (.int n)

/-- The tags argument accepted by the storage layer (`Optional[str | list]`). -/
inductive TagsVal where
  | str (s : String)
  | list (xs : List String)
deriving Repr, DecidableEq

/-- `db._normalize_tags`: `None ↦ None`, a string passes through, a list is
trimmed, filtered and comma-joined — an all-empty result becomes `None`. -/
def normalize_tags : Option TagsVal → Option String
  | none => none
  | some (.str s) => some s
  | some (.list xs) =>
    let materialized := (xs.map pyStrip).filter (· ≠ "")
    if materialized.isEmpty then none else some (joinComma materialized)

/-- Pipeline-side tags for a stored record: `_prepare_tags` composed with
`db._normalize_tags` (the bot always hands the storage layer a list or
`None`). -/
def storedTags (j : Json) : Option String :=
  normalize_tags ((prepareTags j).map TagsVal.list)

/-! ## `bot._clip_text` and `bot._to_int` -/

/-- `bot._clip_text`: trim, keep verbatim up to `maxLen` characters, else
take the first `maxLen - 3` characters, strip trailing whitespace and
append an ellipsis. -/
def clipText (text : String) (maxLen : Nat := 60) : String :=
  let t := pyStrip text
  if t.length ≤ maxLen then t else pyRstrip (pyTake t (maxLen - 3)) ++ "..."

/-- `bot._to_int`: `int(value)` or `None` on `TypeError`/`ValueError`. -/
def toIntOpt (value : Json) : Option Int := pyToInt value

/-! ## Task-scoring adapter — `ai/task_analysis.py` -/

/-- The scoring triple returned by `analyze_task`. -/
structure Analysis where
  importance : Int
  urgency : Int
  reason : String
deriving Repr, DecidableEq

/-- `task_analysis.DEFAULT_RESPONSE`. -/
def defaultAnalysis : Analysis := ⟨3, 3, "ai_fallback"⟩

/-- `task_analysis._clamp_score`: coerce to `int`, non-coercible values
become 3, then clamp into `[1, 5]`. -/
def clampScore (value : Json) : Int :=
  match pyToInt value with
  | none => 3
  | some score => max 1 (min score 5)

/-- `task_analysis._normalize` on a parsed JSON object. -/
def normalizeAnalysis (kvs : List (String × Json)) : Analysis :=
  { importance := clampScore ((jget kvs "importance").getD .null)
    urgency := clampScore ((jget kvs "urgency").getD .null)
    reason := pyOrStr (jget kvs "reason") "No reason provided." }

/-- The observable outcome of one scoring-oracle attempt: either an
exception (network/API failure, empty extracted payload, or a JSON decode
error) or the value `json.loads` produced. -/
inductive AttemptOutcome where
  | failure (msg : String)
  | parsed (j : Json)
deriving Repr, Inhabited

/-- What a single attempt of the `analyze_task` retry loop yields: `none`
when the attempt raised (a non-object JSON payload also raises, inside
`_normalize`, and is caught by the loop). -/
def attemptAnalysis : AttemptOutcome → Option Analysis
  | .failure _ => none
  | .parsed (.obj kvs) => some (normalizeAnalysis kvs)
  | .parsed _ => none

/-- `task_analysis.analyze_task`: two attempts, first success wins, the
fixed default after the second failure.  Total — it never raises. -/
def analyze_task (a1 a2 : AttemptOutcome) : Analysis :=
  match attemptAnalysis a1 with
  | some r => r
  | none =>
    match attemptAnalysis a2 with
    | some r => r
    | none => defaultAnalysis

/-! ## Calendar dates — `datetime.date`, `fromisoformat`, `timedelta` -/

/-- A calendar date. -/
structure Date where
  year : Int
  month : Nat
  day : Nat
deriving Repr, DecidableEq, Inhabited

/-- Gregorian leap-year rule. -/
def isLeapYear (y : Int) : Bool := y % 4 == 0 && (y % 100 != 0 || y % 400 == 0)

/-- Days in the month of a given year. -/
def daysInMonth (y : Int) (m : Nat) : Nat :=
  if m = 2 then (if isLeapYear y then 29 else 28)
  else if m = 4 ∨ m = 6 ∨ m = 9 ∨ m = 11 then 30
  else 31

/-- The calendar successor of a date. -/
def nextDay (d : Date) : Date :=
  if d.day < daysInMonth d.year d.month then ⟨d.year, d.month, d.day + 1⟩
  else if d.month < 12 then ⟨d.year, d.month + 1, 1⟩
  else ⟨d.year + 1, 1, 1⟩

/-- `date + timedelta(days=n)` (the bot only snoozes forward, by 1 day). -/
def addDays (d : Date) : Nat → Date
  | 0 => d
  | n + 1 => addDays (nextDay d) n

/-- Numeric value of a digit character. -/
def digitVal (c : Char) : Nat := c.toNat - '0'.toNat

/-- `datetime.fromisoformat(s).date()` on the `YYYY-MM-DD` strings this
system stores as deadlines; anything else raises (`none`). -/
def parseIsoDate (s : String) : Option Date :=
  match s.data with
  | [y1, y2, y3, y4, '-', m1, m2, '-', d1, d2] =>
    if [y1, y2, y3, y4, m1, m2, d1, d2].all Char.isDigit then
      let y : Int := (((digitVal y1 * 10 + digitVal y2) * 10 + digitVal y3) * 10 + digitVal y4 : Nat)
      let m := digitVal m1 * 10 + digitVal m2
      let d := digitVal d1 * 10 + digitVal d2
      if 1 ≤ m ∧ m ≤ 12 ∧ 1 ≤ d ∧ d ≤ daysInMonth y m then some ⟨y, m, d⟩ else none
    else none
  | _ => none

/-- Zero-pad to two digits. -/
def pad2 (n : Nat) : String := if n < 10 then "0" ++ toString n else toString n

/-- Zero-pad a year to four digits. -/
def pad4 (n : Int) : String :=
  let s := toString n
  if 0 ≤ n ∧ s.length < 4 then String.mk (List.replicate (4 - s.length) '0') ++ s else s

/-- `date.isoformat()`. -/
def toIso (d : Date) : String := pad4 d.year ++ "-" ++ pad2 d.month ++ "-" ++ pad2 d.day

/-! ## Data model — the three record kinds and the store

`created_at` is a logical timestamp: the store's clock strictly increases
with every insert, so list-insertion order is `created_at` ascending and
`ORDER BY created_at DESC` is list reversal. -/

structure Task where
  id : Nat
  user_id : Int
  title : String
  description : Option String
  deadline : Option String
  tags : Option String
  estimated_minutes : Option Int
  importance : Option Int
  urgency : Option Int
  reason : Option String
  priority_score : Option ℚ
  status : Option String
  created_at : Nat
deriving Repr, DecidableEq, Inhabited

structure Idea where
  id : Nat
  user_id : Int
  title : String
  description : Option String
  tags : Option String
  created_at : Nat
deriving Repr, DecidableEq, Inhabited

structure Note where
  id : Nat
  user_id : Int
  title : Option String
  content : String
  tags : Option String
  created_at : Nat
deriving Repr, DecidableEq, Inhabited

/-- The SQLite database: three tables with autoincrement counters and a
logical insertion clock. -/
structure Store where
  tasks : List Task
  ideas : List Idea
  notes : List Note
  nextTaskId : Nat
  nextIdeaId : Nat
  nextNoteId : Nat
  clock : Nat
deriving Repr, DecidableEq, Inhabited

def emptyStore : Store := ⟨[], [], [], 1, 1, 1, 0⟩

/-! ## Storage layer — `db.py` -/

/-- `db.save_task`: insert a row, returning the new id.  Scoring fields
default to `NULL` and status to `'pending'`, as in the source signature. -/
def save_task (store : Store) (user_id : Int) (title : String)
    (description : Option String) (deadline : Option String)
    (tags : Option TagsVal) (estimated_minutes : Option Int)
    (importance : Option Int := none) (urgency : Option Int := none)
    (reason : Option String := none) (priority_score : Option ℚ := none)
    (status : String := "pending") : Store × Nat :=
  let t : Task :=
    { id := store.nextTaskId, user_id := user_id, title := title
      description := description, deadline := deadline
      tags := normalize_tags tags, estimated_minutes := estimated_minutes
      importance := importance, urgency := urgency, reason := reason
      priority_score := priority_score, status := some status
      created_at := store.clock }
  ({ store with tasks := store.tasks ++ [t],
                nextTaskId := store.nextTaskId + 1, clock := store.clock + 1 },
   store.nextTaskId)

/-- `db.save_idea`. -/
def save_idea (store : Store) (user_id : Int) (title : String)
    (description : Option String) (tags : Option TagsVal) : Store :=
  let i : Idea :=
    { id := store.nextIdeaId, user_id := user_id, title := title
      description := description, tags := normalize_tags tags
      created_at := store.clock }
  { store with ideas := store.ideas ++ [i],
               nextIdeaId := store.nextIdeaId + 1, clock := store.clock + 1 }

/-- `db.save_note`. -/
def save_note (store : Store) (user_id : Int) (title : Option String)
    (content : String) (tags : Option TagsVal) : Store :=
  let n : Note :=
    { id := store.nextNoteId, user_id := user_id, title := title
      content := content, tags := normalize_tags tags
      created_at := store.clock }
  { store with notes := store.notes ++ [n],
               nextNoteId := store.nextNoteId + 1, clock := store.clock + 1 }

/-- `db.update_task_analysis`: `UPDATE tasks SET importance, urgency,
reason, priority_score WHERE id = ?` — keyed by the task id alone, with no
`user_id` in the `WHERE` clause. -/
def update_task_analysis (store : Store) (task_id : Nat)
    (importance urgency : Int) (reason : String) (priority_score : ℚ) : Store :=
  { store with tasks := store.tasks.map fun t =>
      if t.id = task_id then
        { t with importance := some importance, urgency := some urgency,
                 reason := some reason, priority_score := some priority_score }
      else t }

/-- `db.update_task_status`: `UPDATE ... WHERE id = ? AND user_id = ?`,
returning whether a row was affected. -/
def update_task_status (store : Store) (user_id : Int) (task_id : Nat)
    (status : String) : Store × Bool :=
  ({ store with tasks := store.tasks.map fun t =>
      if t.id = task_id ∧ t.user_id = user_id then { t with status := some status } else t },
   store.tasks.any fun t => decide (t.id = task_id ∧ t.user_id = user_id))

/-- `db.snooze_task_deadline`: select the row (owner-filtered); base the
new deadline on the stored one when it is non-empty and parses as an ISO
date, on today otherwise; write back and return the new deadline. -/
def snooze_task_deadline (store : Store) (today : Date) (user_id : Int)
    (task_id : Nat) (days : Nat := 1) : Store × Option String :=
  match store.tasks.find? (fun t => decide (t.id = task_id ∧ t.user_id = user_id)) with
  | none => (store, none)
  | some row =>
    let base : Date :=
      match row.deadline with
      | some s => if s ≠ "" then (parseIsoDate s).getD today else today
      | none => today
    let newDeadline := toIso (addDays base days)
    ({ store with tasks := store.tasks.map fun t =>
        if t.id = task_id ∧ t.user_id = user_id then { t with deadline := some newDeadline } else t },
     some newDeadline)

/-- `COALESCE(status, 'pending')`. -/
def coalesceStatus (t : Task) : String := t.status.getD "pending"

/-- `COALESCE(priority_score, 0)`. -/
def priorityKey (t : Task) : ℚ := t.priority_score.getD 0

/-- `ORDER BY COALESCE(priority_score, 0) DESC, created_at DESC`. -/
def priorityOrder (a b : Task) : Bool :=
  decide (priorityKey b < priorityKey a ∨ (priorityKey a = priorityKey b ∧ b.created_at ≤ a.created_at))

/-- Insert into a list sorted by `le`. -/
def insertSorted (le : α → α → Bool) (a : α) : List α → List α
  | [] => [a]
  | b :: bs => if le a b then a :: b :: bs else b :: insertSorted le a bs

/-- Sort a list by `le` (insertion sort — the embedding of SQL `ORDER BY`). -/
def sortByBool (le : α → α → Bool) : List α → List α
  | [] => []
  | a :: as => insertSorted le a (sortByBool le as)

/-- `db.get_all_tasks`: the user's tasks, most recent first. -/
def get_all_tasks (store : Store) (user_id : Int) : List Task :=
  (store.tasks.filter fun t => decide (t.user_id = user_id)).reverse

/-- `db.get_tasks_by_priority`: non-done tasks of the user ordered by
priority score then recency, capped by `LIMIT`. -/
def get_tasks_by_priority (store : Store) (user_id : Int) (limit : Int := 5) : List Task :=
  let rows := store.tasks.filter fun t =>
    decide (t.user_id = user_id ∧ coalesceStatus t ≠ "done")
  (sortByBool priorityOrder rows).take limit.toNat

/-- `db.get_tasks_due_today_or_high_priority`. -/
def get_tasks_due_today_or_high_priority (store : Store) (today : Date) (user_id : Int)
    (limit : Int := 5) (priority_threshold : ℚ := 4) : List Task :=
  let rows := store.tasks.filter fun t =>
    decide (t.user_id = user_id ∧ coalesceStatus t ≠ "done" ∧
      (t.deadline = some (toIso today) ∨ priority_threshold ≤ priorityKey t))
  (sortByBool priorityOrder rows).take limit.toNat

/-- `db.delete_tasks_by_ids`: delete the user's rows whose ids are listed
(an empty id list is a no-op, as in the source). -/
def delete_tasks_by_ids (store : Store) (user_id : Int) (ids : List Nat) : Store :=
  if ids.isEmpty then store
  else { store with tasks := store.tasks.filter fun t =>
          !(decide (t.user_id = user_id ∧ t.id ∈ ids)) }

/-! ## Suggestion engine — `services/suggestions.py` -/

/-- `suggestions.get_top_tasks`: clamp the limit into `[1, 5]`, then query. -/
def get_top_tasks (store : Store) (user_id : Int) (limit : Int := 5) : List Task :=
  get_tasks_by_priority store user_id (max 1 (min limit 5))

/-- `suggestions.get_today_tasks`: clamp the limit into `[1, 5]`, then query. -/
def get_today_tasks (store : Store) (today : Date) (user_id : Int)
    (limit : Int := 5) (priority_threshold : ℚ := 4) : List Task :=
  get_tasks_due_today_or_high_priority store today user_id (max 1 (min limit 5)) priority_threshold

/-! ## Classification adapter — `ai/classifier.py`

The oracle call itself is external; its observable outcome (exception,
empty extracted payload, JSON decode failure on the extracted text, or the
parsed JSON value) is the adapter's input. -/

structure TaskPayload where
  title : String
  details : String
  deadline : Option String
  tags : Json
  estimated_minutes : Json
deriving Repr, Inhabited

structure IdeaPayload where
  title : String
  details : String
  tags : Json
deriving Repr, Inhabited

structure NotePayload where
  title : Option String
  content : String
  tags : Json
deriving Repr, Inhabited

/-- The normalized classification: `type` plus exactly the matching
section populated. -/
structure Classification where
  type : String
  task : Option TaskPayload
  idea : Option IdeaPayload
  note : Option NotePayload
deriving Repr, Inhabited

/-- A string-or-null JSON field passed through verbatim (deadlines and
note titles; the schema types them `string | null`). -/
def jsonToOptStr : Option Json → Option String
  | some (.str s) => some s
  | _ => none

/-- `section.get("tags") or []` — falsy tag values default to an empty
list, truthy ones pass through verbatim. -/
def orEmptyList (v : Option Json) : Json :=
  match v with
  | some j => if jTruthy j then j else .arr []
  | none => .arr []

/-- `section or {}` followed by attribute access: falsy sections become
the empty dict, truthy non-dict sections raise `AttributeError`. -/
def sectionObj : Option Json → Except String (List (String × Json))
  | none => .ok []
  | some .null => .ok []
  | some (.obj kvs) => .ok kvs
  | some (.str s) => if s = "" then .ok [] else .error "AttributeError"
  | some (.int n) => if n = 0 then .ok [] else .error "AttributeError"
  | some (.bool b) => if b then .error "AttributeError" else .ok []
  | some (.arr xs) => if xs.isEmpty then .ok [] else .error "AttributeError"

/-- `classifier._normalize_task`. -/
def normTaskSection (kvs : List (String × Json)) : TaskPayload :=
  { title := pyOrStr (jget kvs "title") ""
    details := pyOrStr (jget kvs "details") ""
    deadline := jsonToOptStr (jget kvs "deadline")
    tags := orEmptyList (jget kvs "tags")
    estimated_minutes := (jget kvs "estimated_minutes").getD .null }

/-- `classifier._normalize_idea`. -/
def normIdeaSection (kvs : List (String × Json)) : IdeaPayload :=
  { title := pyOrStr (jget kvs "title") ""
    details := pyOrStr (jget kvs "details") ""
    tags := orEmptyList (jget kvs "tags") }

/-- `classifier._normalize_note` (the title is kept verbatim, not defaulted). -/
def normNoteSection (kvs : List (String × Json)) : NotePayload :=
  { title := jsonToOptStr (jget kvs "title")
    content := pyOrStr (jget kvs "content") ""
    tags := orEmptyList (jget kvs "tags") }

/-- `classifier._note_fallback`: wrap the text as a bare note. -/
def note_fallback (text : String) : Classification :=
  { type := "note", task := none, idea := none,
    note := some { title := none, content := text, tags := .arr [] } }

/-- `classifier._normalize_payload`: reject a `type` outside the three
allowed values (`ValueError`), normalize the matching section only.  A
non-dict payload raises on attribute access. -/
def normalize_payload (j : Json) : Except String Classification :=
  match j with
  | .obj kvs =>
    match jget kvs "type" with
    | some (.str t) =>
      if t = "task" then
        (sectionObj (jget kvs "task")).map fun s =>
          { type := t, task := some (normTaskSection s), idea := none, note := none }
      else if t = "idea" then
        (sectionObj (jget kvs "idea")).map fun s =>
          { type := t, task := none, idea := some (normIdeaSection s), note := none }
      else if t = "note" then
        (sectionObj (jget kvs "note")).map fun s =>
          { type := t, task := none, idea := none, note := some (normNoteSection s) }
      else .error ("Invalid classification type: " ++ t)
    | _ => .error "Invalid classification type"
  | _ => .error "AttributeError"

/-- The observable outcome of the classification-oracle call. -/
inductive OracleOutcome where
  | unreachable (msg : String)
  | emptyPayload
  | invalidJson
  | parsed (j : Json)
deriving Repr, Inhabited

/-- `classifier.classify_message`: raise on an unreachable oracle or an
empty extracted payload; degrade to the note fallback on malformed JSON;
otherwise normalize (which may raise `InvalidClassificationType`). -/
def classify_message (text : String) (o : OracleOutcome) : Except String Classification :=
  match o with
  | .unreachable msg => .error msg
  | .emptyPayload => .error "OpenAI returned an empty payload."
  | .invalidJson => .ok (note_fallback (pyStrip text))
  | .parsed j => normalize_payload j

/-! ## Classification pipeline — `bot.py` -/

/-- `priority_score = round(importance * 0.6 + urgency * 0.4, 2)` in exact
rational arithmetic. -/
def round2 (q : ℚ) : ℚ := ((round (q * 100) : ℤ) : ℚ) / 100

def priorityScoreOf (importance urgency : Int) : ℚ :=
  round2 ((importance : ℚ) * (6 / 10) + (urgency : ℚ) * (4 / 10))

/-- The fixed user-facing fallback acknowledgment (`bot._fallback_note`). -/
def fallbackMessage : String := "AI failed to classify, so I saved it as a note."

/-- `bot._fallback_note`: store the raw text as a note with `NULL` title
and `NULL` tags; the reply never carries the underlying error. -/
def fallback_note (store : Store) (user_id : Int) (text : String) : Store × String :=
  (save_note store user_id none text none, fallbackMessage)

/-- `f" (deadline: {deadline})" if deadline else ""`. -/
def deadlinePart : Option String → String
  | some s => if s = "" then "" else " (deadline: " ++ s ++ ")"
  | none => ""

/-- `f" [{estimated_minutes} min]" if estimated_minutes else ""`. -/
def estPart : Option Int → String
  | some n => if n = 0 then "" else " [" ++ toString n ++ " min]"
  | none => ""

/-- `bot._save_task`: derive the fields, insert the unscored task, score it
(the adapter is total, so the defensive `except` around it is dead), and
persist the analysis together with the derived priority score. -/
def save_task_flow (store : Store) (user_id : Int) (payload : TaskPayload)
    (originalText : String) (a1 a2 : AttemptOutcome) : Store × String :=
  let title := if payload.title = "" then clipText originalText else payload.title
  let description := if payload.details = "" then none else some payload.details
  let deadline := payload.deadline
  let tags := (prepareTags payload.tags).map TagsVal.list
  let estimated_minutes := toIntOpt payload.estimated_minutes
  let (store1, task_id) := save_task store user_id title description deadline tags estimated_minutes
  let analysis := analyze_task a1 a2
  let store2 := update_task_analysis store1 task_id analysis.importance analysis.urgency
    analysis.reason (priorityScoreOf analysis.importance analysis.urgency)
  (store2,
   "Saved as task: " ++ title ++ deadlinePart deadline ++ estPart estimated_minutes ++
     " (⭐" ++ toString analysis.importance ++ "/⏳" ++ toString analysis.urgency ++ ")")

/-- `bot._save_idea`. -/
def save_idea_flow (store : Store) (user_id : Int) (payload : IdeaPayload)
    (originalText : String) : Store × String :=
  let title := if payload.title = "" then clipText originalText else payload.title
  let description := if payload.details = "" then none else some payload.details
  let tags := (prepareTags payload.tags).map TagsVal.list
  (save_idea store user_id title description tags, "Saved as idea: " ++ title)

/-- `bot._save_note`. -/
def save_note_flow (store : Store) (user_id : Int) (payload : NotePayload)
    (originalText : String) : Store × String :=
  let title := payload.title
  let content := if payload.content = "" then originalText else payload.content
  let tags := (prepareTags payload.tags).map TagsVal.list
  let label := match title with
    | some s => if s = "" then clipText content else s
    | none => clipText content
  (save_note store user_id title content tags, "Saved as note: " ++ label)

/-- `bot._process_incoming_text` on an already-trimmed message: reject
empty text, classify, dispatch on the declared type (requiring the
matching truthy section), fall back to a bare note on any classification
error or contract inconsistency. -/
def process_incoming_text (store : Store) (user_id : Int) (text : String)
    (o : OracleOutcome) (a1 a2 : AttemptOutcome) : Store × String :=
  if text = "" then (store, "I need some text to classify. Try typing a note or todo!")
  else
    match classify_message text o with
    | .error _ => fallback_note store user_id text
    | .ok c =>
      match c.type, c.task, c.idea, c.note with
      | "task", some p, _, _ => save_task_flow store user_id p text a1 a2
      | "idea", _, some p, _ => save_idea_flow store user_id p text
      | "note", _, _, some p => save_note_flow store user_id p text
      | _, _, _, _ => fallback_note store user_id text

/-! ## Bulk delete by indices — `bot._handle_clear_command` -/

/-- The user-visible outcome of a `/clear_task` invocation. -/
inductive ClearReply where
  | usage
  | confirmAll
  | invalidFormat
  | noEntities
  | invalidIndices (invalid : List Int)
  | deleted (indices : List Int)
deriving Repr, DecidableEq

/-- `bot._parse_indices`: split on commas, trim, drop empties; raise when
nothing remains or any piece is not an integer. -/
def parse_indices (text : String) : Option (List Int) :=
  let parts := ((pySplitComma text).map pyStrip).filter (· ≠ "")
  if parts.isEmpty then none
  else parts.mapM (fun p => parseIntChars p.data)

/-- `str.lower()`. -/
def pyLower (s : String) : String := ⟨s.data.map Char.toLower⟩

/-- `bot._handle_clear_command` instantiated for tasks: usage hint on no
arguments, a confirmation prompt for `all`, and for explicit 1-based
indices an all-or-nothing validation against the user's full
most-recent-first list before any deletion. -/
def handle_clear_task_command (store : Store) (user_id : Int) (args : List String) :
    Store × ClearReply :=
  let argsText := pyStrip (String.intercalate " " args)
  if argsText = "" then (store, .usage)
  else if (args.head?.map pyLower) = some "all" then (store, .confirmAll)
  else
    match parse_indices argsText with
    | none => (store, .invalidFormat)
    | some indices =>
      let entities := get_all_tasks store user_id
      if entities.isEmpty then (store, .noEntities)
      else
        let maxIndex : Int := entities.length
        let invalid := indices.filter fun i => decide (i < 1 ∨ maxIndex < i)
        if !invalid.isEmpty then (store, .invalidIndices invalid)
        else
          let idsToDelete := indices.filterMap fun i => (entities.get? (i - 1).toNat).map (·.id)
          (delete_tasks_by_ids store user_id idsToDelete, .deleted indices)

/-! # Verification -/

/-! ## Helper lemmas -/

theorem clampScore_bounds (v : Json) : 1 ≤ clampScore v ∧ clampScore v ≤ 5 := by
  unfold clampScore
  cases pyToInt v with
  | none => constructor <;> simp
  | some n => constructor <;> simp

theorem normalizeAnalysis_bounds (kvs : List (String × Json)) :
    1 ≤ (normalizeAnalysis kvs).importance ∧ (normalizeAnalysis kvs).importance ≤ 5 ∧
    1 ≤ (normalizeAnalysis kvs).urgency ∧ (normalizeAnalysis kvs).urgency ≤ 5 := by
  have h1 := clampScore_bounds ((jget kvs "importance").getD .null)
  have h2 := clampScore_bounds ((jget kvs "urgency").getD .null)
  exact ⟨h1.1, h1.2, h2.1, h2.2⟩

theorem attemptAnalysis_shape (a : AttemptOutcome) :
    attemptAnalysis a = none ∨
      ∃ kvs, attemptAnalysis a = some (normalizeAnalysis kvs) := by
  cases a with
  | failure m => exact Or.inl rfl
  | parsed j => cases j <;> simp [attemptAnalysis]

theorem analyze_task_first (a1 a2 : AttemptOutcome) (r : Analysis)
    (h : attemptAnalysis a1 = some r) : analyze_task a1 a2 = r := by
  unfold analyze_task; rw [h]

theorem analyze_task_second (a1 a2 : AttemptOutcome) (r : Analysis)
    (h1 : attemptAnalysis a1 = none) (h2 : attemptAnalysis a2 = some r) :
    analyze_task a1 a2 = r := by
  unfold analyze_task; rw [h1, h2]

theorem analyze_task_default (a1 a2 : AttemptOutcome)
    (h1 : attemptAnalysis a1 = none) (h2 : attemptAnalysis a2 = none) :
    analyze_task a1 a2 = defaultAnalysis := by
  unfold analyze_task; rw [h1, h2]

theorem analyze_task_bounds (a1 a2 : AttemptOutcome) :
    1 ≤ (analyze_task a1 a2).importance ∧ (analyze_task a1 a2).importance ≤ 5 ∧
    1 ≤ (analyze_task a1 a2).urgency ∧ (analyze_task a1 a2).urgency ≤ 5 := by
  rcases attemptAnalysis_shape a1 with h1 | ⟨kvs, h1⟩
  · rcases attemptAnalysis_shape a2 with h2 | ⟨kvs, h2⟩
    · rw [analyze_task_default a1 a2 h1 h2]; exact ⟨by decide, by decide, by decide, by decide⟩
    · rw [analyze_task_second a1 a2 _ h1 h2]; exact normalizeAnalysis_bounds kvs
  · rw [analyze_task_first a1 a2 _ h1]; exact normalizeAnalysis_bounds kvs

/-- C3: the task-scoring adapter is a total function (it cannot raise):
when the first attempt fails — oracle failure, empty payload, malformed
or non-object JSON — it uses the second attempt, and when that also fails
it returns exactly `{importance: 3, urgency: 3, reason: "ai_fallback"}`;
a successful attempt yields importance and urgency clamped into `[1,5]`
(with non-coercible values becoming 3) and a missing reason defaulting to
`"No reason provided."`. -/
theorem claim_C3 (a1 a2 : AttemptOutcome) :
    (1 ≤ (analyze_task a1 a2).importance ∧ (analyze_task a1 a2).importance ≤ 5 ∧
     1 ≤ (analyze_task a1 a2).urgency ∧ (analyze_task a1 a2).urgency ≤ 5) ∧
    (attemptAnalysis a1 = none → attemptAnalysis a2 = none →
      analyze_task a1 a2 = { importance := 3, urgency := 3, reason := "ai_fallback" }) ∧
    (∀ r, attemptAnalysis a1 = some r → analyze_task a1 a2 = r) ∧
    (∀ r, attemptAnalysis a1 = none → attemptAnalysis a2 = some r → analyze_task a1 a2 = r) ∧
    (∀ kvs, (normalizeAnalysis kvs).importance = clampScore ((jget kvs "importance").getD .null) ∧
            (normalizeAnalysis kvs).urgency = clampScore ((jget kvs "urgency").getD .null)) ∧
    (∀ kvs, jget kvs "reason" = none → (normalizeAnalysis kvs).reason = "No reason provided.") ∧
    (∀ v, pyToInt v = none → clampScore v = 3) := by
  refine ⟨analyze_task_bounds a1 a2,
          analyze_task_default a1 a2,
          fun r h => analyze_task_first a1 a2 r h,
          fun r h1 h2 => analyze_task_second a1 a2 r h1 h2,
          fun kvs => ⟨rfl, rfl⟩,
          fun kvs h => ?_,
          fun v h => ?_⟩
  · simp [normalizeAnalysis, h, pyOrStr]
  · simp [clampScore, h]

/-- Witness for C3: both attempts fail on a malformed-JSON outcome and the
fixed default is returned; a successful second attempt with an
out-of-range importance, a non-coercible urgency and no reason is clamped
and defaulted. -/
theorem claim_C3_witness :
    analyze_task (.failure "timeout") (.failure "empty payload") =
      { importance := 3, urgency := 3, reason := "ai_fallback" } ∧
    analyze_task (.failure "timeout")
        (.parsed (.obj [("importance", .int 9), ("urgency", .str "hot")])) =
      { importance := 5, urgency := 3, reason := "No reason provided." } := by
  constructor
  · exact (claim_C3 (.failure "timeout") (.failure "empty payload")).2.1 rfl rfl
  · exact (claim_C3 (.failure "timeout")
      (.parsed (.obj [("importance", .int 9), ("urgency", .str "hot")]))).2.2.2.1
      _ rfl (by decide)

/-! ## Tag round-trip lemmas -/

theorem splitCommaChars_nocomma (p : List Char) (hp : ',' ∉ p) :
    splitCommaChars p = [p] := by
  induction p with
  | nil => rfl
  | cons c p ih =>
    have hc : c ≠ ',' := fun h => hp (h ▸ List.mem_cons_self c p)
    have hp' : ',' ∉ p := fun h => hp (List.mem_cons_of_mem c h)
    simp [splitCommaChars, hc, ih hp']

theorem splitCommaChars_append (p cs : List Char) (hp : ',' ∉ p) :
    splitCommaChars (p ++ ',' :: cs) = p :: splitCommaChars cs := by
  induction p with
  | nil => simp [splitCommaChars]
  | cons c p ih =>
    have hc : c ≠ ',' := fun h => hp (h ▸ List.mem_cons_self c p)
    have hp' : ',' ∉ p := fun h => hp (List.mem_cons_of_mem c h)
    simp only [List.cons_append, splitCommaChars, if_neg hc, List.append_eq]
    rw [ih hp']

theorem splitCommaChars_join (ps : List (List Char)) (hne : ps ≠ [])
    (h : ∀ p ∈ ps, ',' ∉ p) : splitCommaChars (joinCommaChars ps) = ps := by
  induction ps with
  | nil => exact absurd rfl hne
  | cons p ps ih =>
    cases ps with
    | nil => simpa [joinCommaChars] using splitCommaChars_nocomma p (h p (List.mem_cons_self p []))
    | cons q qs =>
      have hp : ',' ∉ p := h p (List.mem_cons_self ..)
      have hrest : ∀ r ∈ q :: qs, ',' ∉ r := fun r hr => h r (List.mem_cons_of_mem p hr)
      have hjoin : joinCommaChars (p :: q :: qs) = p ++ ',' :: joinCommaChars (q :: qs) := rfl
      rw [hjoin, splitCommaChars_append p _ hp, ih (by simp) hrest]

theorem pySplitComma_joinComma (xs : List String) (hne : xs ≠ [])
    (h : ∀ t ∈ xs, ',' ∉ t.data) : pySplitComma (joinComma xs) = xs := by
  unfold pySplitComma joinComma
  rw [splitCommaChars_join (xs.map String.data) (by simpa using hne) (by simpa using h)]
  have hmk : ∀ l : List String, (l.map String.data).map String.mk = l := by
    intro l
    induction l with
    | nil => rfl
    | cons a l ih =>
      show String.mk a.data :: (l.map String.data).map String.mk = a :: l
      rw [ih]
  exact hmk xs

theorem map_strip_filter_eq_self (xs : List String)
    (h : ∀ t ∈ xs, pyStrip t = t ∧ t ≠ "") :
    ((xs.map pyStrip).filter (· ≠ "")) = xs := by
  have hmap : xs.map pyStrip = xs := by
    rw [List.map_congr_left (g := id) (fun t ht => (h t ht).1), List.map_id]
  rw [hmap, List.filter_eq_self.mpr]
  intro a ha
  simpa using (h a ha).2

theorem prepareTags_joinComma (xs : List String) (hne : xs ≠ [])
    (h : ∀ t ∈ xs, ',' ∉ t.data ∧ pyStrip t = t ∧ t ≠ "")
    (hbr : (pyStrip (joinComma xs)).data.head? ≠ some '[') :
    prepareTags (.str (joinComma xs)) = some xs := by
  have hsplit : pySplitComma (joinComma xs) = xs :=
    pySplitComma_joinComma xs hne (fun t ht => (h t ht).1)
  simp only [prepareTags, if_neg hbr]
  rw [hsplit, map_strip_filter_eq_self xs (fun t ht => ⟨(h t ht).2.1, (h t ht).2.2⟩)]

/-- C5: tag normalization maps `"a, b ,, c"` to `["a","b","c"]`; each of
`null`, the empty list and the empty string is stored as an absent tags
column (never an explicit empty sequence); and for a canonical tag list
(non-empty, trimmed, comma-free entries, not JSON-array-shaped when
joined) storing comma-joins the tags and reading the stored string back
through the same normalizer reproduces the identical ordered sequence. -/
theorem claim_C5 :
    prepareTags (.str "a, b ,, c") = some ["a", "b", "c"] ∧
    (storedTags .null = none ∧ storedTags (.arr []) = none ∧ storedTags (.str "") = none) ∧
    (∀ xs : List String, xs ≠ [] →
      (∀ t ∈ xs, ',' ∉ t.data ∧ pyStrip t = t ∧ t ≠ "") →
      (pyStrip (joinComma xs)).data.head? ≠ some '[' →
      normalize_tags (some (.list xs)) = some (joinComma xs) ∧
      prepareTags (.str (joinComma xs)) = some xs) := by
  refine ⟨by decide, ⟨by decide, by decide, by decide⟩, fun xs hne h hbr => ⟨?_, prepareTags_joinComma xs hne h hbr⟩⟩
  simp only [normalize_tags, map_strip_filter_eq_self xs (fun t ht => ⟨(h t ht).2.1, (h t ht).2.2⟩)]
  rw [if_neg (by simpa using hne)]

/-- Witness for C5: the round-trip instantiated at `["a","b","c"]` — the
list is stored as `"a,b,c"` and reading that string back yields the same
ordered tags. -/
theorem claim_C5_witness :
    normalize_tags (some (.list ["a", "b", "c"])) = some "a,b,c" ∧
    prepareTags (.str "a,b,c") = some ["a", "b", "c"] := by
  have h := claim_C5.2.2 ["a", "b", "c"] (by decide) (by decide) (by decide)
  have hj : joinComma ["a", "b", "c"] = "a,b,c" := by decide
  rw [hj] at h
  exact h

/-! ## Title clipping (C9) -/

/-- A 61-character input, one character past the clipping threshold. -/
def sixtyOneAs : String := String.mk (List.replicate 61 'a')

/-- Counterexample to C9 as stated: on a 61-character text the stored
title is NOT "the first 60 characters with an ellipsis appended" — the
code keeps only the first 57 characters (trailing whitespace stripped)
before the ellipsis, so the whole title fits in 60 characters. -/
theorem claim_C9_counterexample :
    clipText sixtyOneAs ≠ String.mk (List.replicate 60 'a') ++ "..." ∧
    clipText sixtyOneAs = String.mk (List.replicate 57 'a') ++ "..." := by
  constructor
  · decide
  · decide

theorem rstripChars_length_le (cs : List Char) : (rstripChars cs).length ≤ cs.length := by
  unfold rstripChars
  have h : ∀ (p : Char → Bool) (l : List Char), (l.dropWhile p).length ≤ l.length := by
    intro p l
    induction l with
    | nil => simp
    | cons a l ih =>
      by_cases hpa : p a
      · simp only [List.dropWhile, hpa]
        exact Nat.le_succ_of_le ih
      · simp [List.dropWhile, hpa]
  simpa using h Char.isWhitespace cs.reverse

/-- C9 (amended): when the oracle provides no title, the stored task's
title is the clipped input text — kept verbatim (after trimming) when at
most 60 characters, and otherwise the first 57 characters with trailing
whitespace stripped followed by `"..."`; the title never exceeds 60
characters. -/
theorem claim_C9 (store : Store) (user : Int) (p : TaskPayload) (text : String)
    (a1 a2 : AttemptOutcome) (hp : p.title = "") :
    (∃ task, task ∈ (save_task_flow store user p text a1 a2).1.tasks ∧
       task.id = store.nextTaskId ∧ task.title = clipText text) ∧
    ((pyStrip text).length ≤ 60 → clipText text = pyStrip text) ∧
    (60 < (pyStrip text).length →
       clipText text = pyRstrip (pyTake (pyStrip text) 57) ++ "...") ∧
    (clipText text).length ≤ 60 := by
  refine ⟨?_, ?_, ?_, ?_⟩
  · simp only [save_task_flow, save_task, update_task_analysis]
    refine ⟨_, List.mem_map_of_mem _ (List.mem_append_right _ (List.mem_singleton_self _)),
      ?_, ?_⟩ <;> simp [hp]
  · intro h
    simp [clipText, h]
  · intro h
    simp [clipText, Nat.not_le.mpr h]
  · by_cases h : (pyStrip text).length ≤ 60
    · simp [clipText, h]
    · have h' : ¬ ((pyStrip text).length ≤ 60) := h
      simp only [clipText, if_neg h']
      show (pyRstrip (pyTake (pyStrip text) 57) ++ "...").length ≤ 60
      have h1 : (pyRstrip (pyTake (pyStrip text) 57)).length ≤ 57 := by
        have := rstripChars_length_le ((pyStrip text).data.take 57)
        have h2 : ((pyStrip text).data.take 57).length ≤ 57 := by
          simp [List.length_take]
        calc (pyRstrip (pyTake (pyStrip text) 57)).length
            = (rstripChars ((pyStrip text).data.take 57)).length := rfl
          _ ≤ ((pyStrip text).data.take 57).length := this
          _ ≤ 57 := h2
      have : (pyRstrip (pyTake (pyStrip text) 57) ++ "...").length
           = (pyRstrip (pyTake (pyStrip text) 57)).length + 3 :=
        String.length_append _ _
      omega

/-- Witness for C9 (amended): a short text is kept verbatim as the title,
and on the 61-character text the derived title stays within 60 characters. -/
theorem claim_C9_witness :
    clipText "short text" = "short text" ∧ (clipText sixtyOneAs).length ≤ 60 := by
  have h1 := claim_C9 emptyStore 1 ⟨"", "", none, .arr [], .null⟩ "short text"
    (.failure "x") (.failure "x") rfl
  have h2 := claim_C9 emptyStore 1 ⟨"", "", none, .arr [], .null⟩ sixtyOneAs
    (.failure "x") (.failure "x") rfl
  have e := h1.2.1 (by decide)
  rw [show pyStrip "short text" = "short text" from by decide] at e
  exact ⟨e, h2.2.2.2⟩

/-! ## Suggestion limits (C10) -/

theorem get_tasks_by_priority_length (store : Store) (user : Int) (l : Int)
    (h : l ≤ 5) : (get_tasks_by_priority store user l).length ≤ 5 := by
  unfold get_tasks_by_priority
  have hl : l.toNat ≤ 5 := by omega
  calc (List.take l.toNat _).length ≤ l.toNat := by simp [List.length_take]
    _ ≤ 5 := hl

theorem get_tasks_due_today_length (store : Store) (today : Date) (user : Int)
    (l : Int) (thr : ℚ) (h : l ≤ 5) :
    (get_tasks_due_today_or_high_priority store today user l thr).length ≤ 5 := by
  unfold get_tasks_due_today_or_high_priority
  have hl : l.toNat ≤ 5 := by omega
  calc (List.take l.toNat _).length ≤ l.toNat := by simp [List.length_take]
    _ ≤ 5 := hl

/-- C10: both suggestion operations clamp any caller-supplied integer
limit — including zero, negatives and values above 5 — into `[1, 5]`
before querying, and therefore return at most 5 tasks. -/
theorem claim_C10 (store : Store) (today : Date) (user : Int) (limit : Int) :
    (∃ l, 1 ≤ l ∧ l ≤ 5 ∧ get_top_tasks store user limit = get_tasks_by_priority store user l) ∧
    (∃ l, 1 ≤ l ∧ l ≤ 5 ∧ get_today_tasks store today user limit =
       get_tasks_due_today_or_high_priority store today user l 4) ∧
    (get_top_tasks store user limit).length ≤ 5 ∧
    (get_today_tasks store today user limit).length ≤ 5 := by
  have hlo : 1 ≤ max 1 (min limit 5) := le_max_left _ _
  have hhi : max 1 (min limit 5) ≤ 5 := max_le (by norm_num) (min_le_right _ _)
  exact ⟨⟨max 1 (min limit 5), hlo, hhi, rfl⟩,
         ⟨max 1 (min limit 5), hlo, hhi, rfl⟩,
         get_tasks_by_priority_length store user _ hhi,
         get_tasks_due_today_length store today user _ 4 hhi⟩

/-! ## The priority-score invariant (C2) -/

/-- The spec's task invariant: `priority_score` is present iff both
`importance` and `urgency` are, and then equals
`importance * 0.6 + urgency * 0.4` rounded to 2 decimals. -/
def scoreInv (t : Task) : Prop :=
  (t.priority_score.isSome ↔ (t.importance.isSome ∧ t.urgency.isSome)) ∧
  (∀ i u s, t.importance = some i → t.urgency = some u → t.priority_score = some s →
    s = round2 ((i : ℚ) * (6 / 10) + (u : ℚ) * (4 / 10)))

theorem scoreInv_save_task (store : Store) (user : Int) (title : String)
    (desc dl : Option String) (tags : Option TagsVal) (est : Option Int)
    (h : ∀ t ∈ store.tasks, scoreInv t) :
    ∀ t ∈ (save_task store user title desc dl tags est).1.tasks, scoreInv t := by
  intro t ht
  simp only [save_task] at ht
  rcases List.mem_append.mp ht with h1 | h2
  · exact h t h1
  · rw [List.mem_singleton.mp h2]
    exact ⟨by simp, fun i u s hi hu hs => by simp at hs⟩

theorem scoreInv_update_task_analysis (store : Store) (tid : Nat)
    (imp urg : Int) (r : String)
    (h : ∀ t ∈ store.tasks, scoreInv t) :
    ∀ t ∈ (update_task_analysis store tid imp urg r (priorityScoreOf imp urg)).tasks,
      scoreInv t := by
  intro t ht
  simp only [update_task_analysis, List.mem_map] at ht
  obtain ⟨t0, ht0, rfl⟩ := ht
  by_cases hid : t0.id = tid
  · simp only [if_pos hid]
    refine ⟨by simp, fun i u s hi hu hs => ?_⟩
    simp only [Option.some.injEq] at hi hu hs
    rw [← hi, ← hu, ← hs]
    rfl
  · simp only [if_neg hid]
    exact h t0 ht0

theorem scoreInv_save_task_flow (store : Store) (user : Int) (p : TaskPayload)
    (text : String) (a1 a2 : AttemptOutcome)
    (h : ∀ t ∈ store.tasks, scoreInv t) :
    ∀ t ∈ (save_task_flow store user p text a1 a2).1.tasks, scoreInv t :=
  scoreInv_update_task_analysis _ _ _ _ _
    (scoreInv_save_task store user _ _ _ _ _ h)

theorem scoreInv_update_task_status (store : Store) (user : Int) (tid : Nat)
    (st : String) (h : ∀ t ∈ store.tasks, scoreInv t) :
    ∀ t ∈ (update_task_status store user tid st).1.tasks, scoreInv t := by
  intro t ht
  simp only [update_task_status, List.mem_map] at ht
  obtain ⟨t0, ht0, rfl⟩ := ht
  by_cases hc : t0.id = tid ∧ t0.user_id = user
  · simp only [if_pos hc]
    exact h t0 ht0
  · simp only [if_neg hc]
    exact h t0 ht0

theorem scoreInv_snooze (store : Store) (today : Date) (user : Int) (tid : Nat)
    (days : Nat) (h : ∀ t ∈ store.tasks, scoreInv t) :
    ∀ t ∈ (snooze_task_deadline store today user tid days).1.tasks, scoreInv t := by
  unfold snooze_task_deadline
  cases hf : store.tasks.find? (fun t => decide (t.id = tid ∧ t.user_id = user)) with
  | none => exact h
  | some row =>
    intro t ht
    simp only [List.mem_map] at ht
    obtain ⟨t0, ht0, rfl⟩ := ht
    by_cases hc : t0.id = tid ∧ t0.user_id = user
    · simp only [if_pos hc]
      exact h t0 ht0
    · simp only [if_neg hc]
      exact h t0 ht0

/-- C2: every task-writing operation preserves the priority-score
invariant — creation inserts a task with all four scoring fields `NULL`;
the pipeline's analysis update sets importance, urgency, reason and the
derived `round2(importance*0.6 + urgency*0.4)` together; the full task
path (create then score) preserves it end to end; and the status and
snooze updates leave the scoring fields untouched. -/
theorem claim_C2 (store : Store) (user : Int) (title : String)
    (desc dl : Option String) (tags : Option TagsVal) (est : Option Int)
    (tid : Nat) (imp urg : Int) (r : String) (p : TaskPayload) (text : String)
    (a1 a2 : AttemptOutcome) (today : Date) (days : Nat) (st : String)
    (h : ∀ t ∈ store.tasks, scoreInv t) :
    (∀ t ∈ (save_task store user title desc dl tags est).1.tasks, scoreInv t) ∧
    (∀ t ∈ (update_task_analysis store tid imp urg r (priorityScoreOf imp urg)).tasks, scoreInv t) ∧
    (∀ t ∈ (save_task_flow store user p text a1 a2).1.tasks, scoreInv t) ∧
    (∀ t ∈ (update_task_status store user tid st).1.tasks, scoreInv t) ∧
    (∀ t ∈ (snooze_task_deadline store today user tid days).1.tasks, scoreInv t) :=
  ⟨scoreInv_save_task store user title desc dl tags est h,
   scoreInv_update_task_analysis store tid imp urg r h,
   scoreInv_save_task_flow store user p text a1 a2 h,
   scoreInv_update_task_status store user tid st h,
   scoreInv_snooze store today user tid days h⟩

/-- Witness for C2: the task produced by running the full task path on
the empty store satisfies the invariant. -/
theorem claim_C2_witness :
    scoreInv ((save_task_flow emptyStore 1 ⟨"Buy milk", "", none, .arr [], .null⟩
      "Buy milk" (.failure "x") (.failure "y")).1.tasks.head!) :=
  (claim_C2 emptyStore 1 "Buy milk" none none none none 1 3 3 "r"
    ⟨"Buy milk", "", none, .arr [], .null⟩ "Buy milk" (.failure "x") (.failure "y")
    ⟨2024, 6, 10⟩ 1 "done" (by simp [emptyStore])).2.2.1 _
    (List.head!_mem_self (by decide))

/-! ## Exactly one record per processed message (C1) -/

/-- C1: for every non-empty (trimmed) input, processing the message adds
exactly one record to the store — a task on the task path, an idea on the
idea path, a note on the note and fallback paths — and leaves the other
two tables untouched; no input is dropped without a stored record. -/
theorem claim_C1 (store : Store) (user : Int) (text : String) (o : OracleOutcome)
    (a1 a2 : AttemptOutcome) (h : text ≠ "") :
    ((process_incoming_text store user text o a1 a2).1.tasks.length = store.tasks.length + 1 ∧
     (process_incoming_text store user text o a1 a2).1.ideas = store.ideas ∧
     (process_incoming_text store user text o a1 a2).1.notes = store.notes) ∨
    ((process_incoming_text store user text o a1 a2).1.tasks = store.tasks ∧
     (process_incoming_text store user text o a1 a2).1.ideas.length = store.ideas.length + 1 ∧
     (process_incoming_text store user text o a1 a2).1.notes = store.notes) ∨
    ((process_incoming_text store user text o a1 a2).1.tasks = store.tasks ∧
     (process_incoming_text store user text o a1 a2).1.ideas = store.ideas ∧
     (process_incoming_text store user text o a1 a2).1.notes.length = store.notes.length + 1) := by
  unfold process_incoming_text
  rw [if_neg h]
  cases hcm : classify_message text o with
  | error e =>
    right; right
    simp [fallback_note, save_note]
  | ok c =>
    rcases c with ⟨ty, otask, oidea, onote⟩
    dsimp only
    split
    · left
      simp [save_task_flow, save_task, update_task_analysis]
    · right; left
      simp [save_idea_flow, save_idea]
    · right; right
      simp [save_note_flow, save_note]
    · right; right
      simp [fallback_note, save_note]

/-- Witness for C1: an unreachable oracle still stores exactly one record
(the fallback note). -/
theorem claim_C1_witness :
    (process_incoming_text emptyStore 7 "call mom" (.unreachable "down")
        (.failure "x") (.failure "y")).1.tasks = emptyStore.tasks ∨
    (process_incoming_text emptyStore 7 "call mom" (.unreachable "down")
        (.failure "x") (.failure "y")).1.notes.length = emptyStore.notes.length + 1 := by
  rcases claim_C1 emptyStore 7 "call mom" (.unreachable "down")
      (.failure "x") (.failure "y") (by decide) with h | h | h
  · exact absurd h.1 (by decide)
  · exact Or.inl h.1
  · exact Or.inr h.2.2

/-! ## Fallback path on classification failure (C4) -/

/-- C4: whenever classification raises — unreachable oracle, empty
extracted payload, or an invalid declared type outside
`{task, idea, note}` (shown separately to be an error) — the pipeline
stores a note whose content is the trimmed input verbatim with title and
tags absent, and replies with the fixed fallback message, never the raw
error. -/
theorem claim_C4 (store : Store) (user : Int) (text : String) (o : OracleOutcome)
    (a1 a2 : AttemptOutcome) (h : text ≠ "")
    (herr : ∀ c, classify_message text o ≠ .ok c) :
    process_incoming_text store user text o a1 a2 =
      (save_note store user none text none, fallbackMessage) ∧
    (save_note store user none text none).notes.getLast? = some
      { id := store.nextNoteId, user_id := user, title := none, content := text,
        tags := none, created_at := store.clock } ∧
    (∀ t kvs, jget kvs "type" = some (.str t) →
      t ≠ "task" → t ≠ "idea" → t ≠ "note" →
      ∀ c, classify_message text (.parsed (.obj kvs)) ≠ .ok c) := by
  refine ⟨?_, ?_, ?_⟩
  · unfold process_incoming_text
    rw [if_neg h]
    cases hcm : classify_message text o with
    | error e => rfl
    | ok c => exact absurd hcm (herr c)
  · simp [save_note, normalize_tags]
  · intro t kvs hty h1 h2 h3 c hc
    simp only [classify_message, normalize_payload, hty, if_neg h1, if_neg h2, if_neg h3] at hc
    exact Except.noConfusion hc

/-- Witness for C4: an empty oracle payload stores the trimmed input
verbatim as a bare note and replies with the fixed fallback message. -/
theorem claim_C4_witness :
    process_incoming_text emptyStore 3 "remember this" .emptyPayload
        (.failure "x") (.failure "y") =
      (save_note emptyStore 3 none "remember this" none, fallbackMessage) :=
  (claim_C4 emptyStore 3 "remember this" .emptyPayload (.failure "x") (.failure "y")
    (by decide) (fun c hc => by simp [classify_message] at hc)).1

/-! ## Owner scoping (C6) -/

/-- A single task owned by user 1. -/
def taskOfUserA : Task :=
  { id := 1, user_id := 1, title := "A task", description := none, deadline := none,
    tags := none, estimated_minutes := none, importance := none, urgency := none,
    reason := none, priority_score := none, status := some "pending", created_at := 0 }

/-- A store holding only user 1's task. -/
def storeOfUserA : Store :=
  { tasks := [taskOfUserA], ideas := [], notes := [], nextTaskId := 2,
    nextIdeaId := 1, nextNoteId := 1, clock := 1 }

/-- Counterexample to C6 as stated: `update_task_analysis` is an update
operation on tasks that does not filter by the owning user — it takes no
user id at all and its `WHERE` clause matches on the task id alone, so a
call made on behalf of any other user with user 1's task id modifies
user 1's task instead of treating it as nonexistent. -/
theorem claim_C6_counterexample :
    (update_task_analysis storeOfUserA 1 4 4 "rescored" (priorityScoreOf 4 4)).tasks ≠
      storeOfUserA.tasks ∧
    (update_task_analysis storeOfUserA 1 4 4 "rescored" (priorityScoreOf 4 4)).tasks.map
      Task.importance = [some 4] := by
  constructor
  · decide
  · decide

/-- C6 (amended): the owner-scoped task updates — the status update and
the snooze — filter by the owning user: when no task matches both the id
and the calling user, the status update returns `false` and the snooze
returns `null`, and in both cases the store is left completely
unmodified.  (`update_task_analysis`, by contrast, is keyed by task id
alone and performs no owner filtering; see the counterexample.) -/
theorem claim_C6 (store : Store) (userB : Int) (tid : Nat) (st : String)
    (today : Date) (days : Nat)
    (h : ∀ t ∈ store.tasks, ¬(t.id = tid ∧ t.user_id = userB)) :
    update_task_status store userB tid st = (store, false) ∧
    snooze_task_deadline store today userB tid days = (store, none) := by
  have map_eq_self : ∀ (f : Task → Task), (∀ a ∈ store.tasks, f a = a) →
      store.tasks.map f = store.tasks := by
    intro f
    induction store.tasks with
    | nil => intro _; rfl
    | cons a l ih =>
      intro hf
      simp only [List.map_cons, hf a (List.mem_cons_self a l),
        ih (fun b hb => hf b (List.mem_cons_of_mem a hb))]
  have hmap : store.tasks.map
      (fun t => if t.id = tid ∧ t.user_id = userB then { t with status := some st } else t) =
      store.tasks :=
    map_eq_self _ (fun t ht => if_neg (h t ht))
  have hany : (store.tasks.any fun t => decide (t.id = tid ∧ t.user_id = userB)) = false := by
    rw [List.any_eq_false]
    intro t ht
    simp [h t ht]
  have hfind : store.tasks.find? (fun t => decide (t.id = tid ∧ t.user_id = userB)) = none := by
    rw [List.find?_eq_none]
    intro t ht
    simp [h t ht]
  constructor
  · show ({ store with tasks := store.tasks.map _ }, store.tasks.any _) = (store, false)
    rw [hmap, hany]
  · unfold snooze_task_deadline
    rw [hfind]

/-- Witness for C6 (amended): user 2 calling the status update or the
snooze on user 1's task id gets "not found" and user 1's task is
unmodified. -/
theorem claim_C6_witness :
    update_task_status storeOfUserA 2 1 "done" = (storeOfUserA, false) ∧
    snooze_task_deadline storeOfUserA ⟨2024, 6, 10⟩ 2 1 1 = (storeOfUserA, none) :=
  claim_C6 storeOfUserA 2 1 "done" ⟨2024, 6, 10⟩ 1 (by decide)

/-! ## Snooze semantics (C7) -/

/-- C7: snoozing an owned task bases the new deadline on the stored one
when it parses as an ISO date, and on today when the deadline is absent,
empty or unparsable; in every found case the new deadline is both written
back to the matching row and returned, and when no task matches the id
and caller the store is untouched and `null` is returned. -/
theorem claim_C7 (store : Store) (today : Date) (user : Int) (tid : Nat) (days : Nat) :
    (store.tasks.find? (fun t => decide (t.id = tid ∧ t.user_id = user)) = none →
      snooze_task_deadline store today user tid days = (store, none)) ∧
    (∀ row, store.tasks.find? (fun t => decide (t.id = tid ∧ t.user_id = user)) = some row →
      (∀ s d, row.deadline = some s → parseIsoDate s = some d →
        (snooze_task_deadline store today user tid days).2 =
          some (toIso (addDays d days))) ∧
      ((row.deadline = none ∨ row.deadline = some "" ∨
        (∃ s, row.deadline = some s ∧ parseIsoDate s = none)) →
        (snooze_task_deadline store today user tid days).2 =
          some (toIso (addDays today days))) ∧
      (∃ nd, (snooze_task_deadline store today user tid days).2 = some nd ∧
        (snooze_task_deadline store today user tid days).1 =
          { store with tasks := store.tasks.map fun t =>
              if t.id = tid ∧ t.user_id = user then { t with deadline := some nd } else t })) := by
  constructor
  · intro hf
    unfold snooze_task_deadline
    rw [hf]
  · intro row hrow
    refine ⟨fun s d hs hd => ?_, fun hcase => ?_, ?_⟩
    · have hse : s ≠ "" := by
        intro he
        subst he
        simp [parseIsoDate] at hd
      unfold snooze_task_deadline
      rw [hrow]
      simp [hs, hd, hse]
    · rcases hcase with hnone | hempty | ⟨s, hs, hd⟩
      · unfold snooze_task_deadline
        rw [hrow]
        simp [hnone]
      · unfold snooze_task_deadline
        rw [hrow]
        simp [hempty]
      · unfold snooze_task_deadline
        rw [hrow]
        simp [hs, hd]
    · unfold snooze_task_deadline
      rw [hrow]
      exact ⟨_, rfl, rfl⟩

/-- The two-task fixture for the snooze examples. -/
def snoozeTask1 : Task :=
  { id := 1, user_id := 1, title := "with deadline", description := none,
    deadline := some "2024-06-01", tags := none, estimated_minutes := none,
    importance := none, urgency := none, reason := none, priority_score := none,
    status := some "pending", created_at := 0 }

def snoozeTask2 : Task :=
  { id := 2, user_id := 1, title := "no deadline", description := none,
    deadline := none, tags := none, estimated_minutes := none,
    importance := none, urgency := none, reason := none, priority_score := none,
    status := some "pending", created_at := 1 }

def snoozeStore : Store :=
  { tasks := [snoozeTask1, snoozeTask2], ideas := [], notes := [], nextTaskId := 3,
    nextIdeaId := 1, nextNoteId := 1, clock := 2 }

/-- Witness for C7: snoozing by 2 days turns deadline `"2024-06-01"` into
`"2024-06-03"`; with a null deadline and today `"2024-06-10"` it yields
`"2024-06-12"`; another user gets `null` and no write. -/
theorem claim_C7_witness :
    (snooze_task_deadline snoozeStore ⟨2024, 6, 10⟩ 1 1 2).2 = some "2024-06-03" ∧
    (snooze_task_deadline snoozeStore ⟨2024, 6, 10⟩ 1 2 2).2 = some "2024-06-12" ∧
    snooze_task_deadline snoozeStore ⟨2024, 6, 10⟩ 2 1 2 = (snoozeStore, none) := by
  refine ⟨?_, ?_, ?_⟩
  · have h := ((claim_C7 snoozeStore ⟨2024, 6, 10⟩ 1 1 2).2 snoozeTask1 (by decide)).1
      "2024-06-01" ⟨2024, 6, 1⟩ rfl (by decide)
    rw [h]
    decide
  · have h := ((claim_C7 snoozeStore ⟨2024, 6, 10⟩ 1 2 2).2 snoozeTask2 (by decide)).2.1
      (Or.inl rfl)
    rw [h]
    decide
  · exact (claim_C7 snoozeStore ⟨2024, 6, 10⟩ 2 1 2).1 (by decide)

/-! ## All-or-nothing bulk delete (C8) -/

/-- C8: bulk delete by 1-based indices validates all indices against the
user's full most-recent-first list before touching the store — if any
index is out of range nothing is deleted, and (when the user has any
records at all) the invalid indices are reported; only when every index is
in range are exactly the corresponding records deleted. -/
theorem claim_C8 (store : Store) (user : Int) (args : List String) (indices : List Int)
    (hall : (args.head?.map pyLower) ≠ some "all")
    (hparse : parse_indices (pyStrip (String.intercalate " " args)) = some indices) :
    ((∃ i ∈ indices, i < 1 ∨ ((get_all_tasks store user).length : Int) < i) →
       (handle_clear_task_command store user args).1 = store) ∧
    (¬ (get_all_tasks store user).isEmpty = true →
     (indices.filter fun i => decide (i < 1 ∨ ((get_all_tasks store user).length : Int) < i)) ≠ [] →
       handle_clear_task_command store user args =
         (store, .invalidIndices (indices.filter fun i =>
            decide (i < 1 ∨ ((get_all_tasks store user).length : Int) < i)))) ∧
    ((indices.filter fun i => decide (i < 1 ∨ ((get_all_tasks store user).length : Int) < i)) = [] →
     ¬ (get_all_tasks store user).isEmpty = true →
       handle_clear_task_command store user args =
         (delete_tasks_by_ids store user (indices.filterMap fun i =>
            ((get_all_tasks store user).get? (i - 1).toNat).map (·.id)), .deleted indices)) := by
  have hargs : pyStrip (String.intercalate " " args) ≠ "" := by
    intro he
    rw [he, show parse_indices "" = none from by decide] at hparse
    exact Option.noConfusion hparse
  have hc2 : ¬ (get_all_tasks store user).isEmpty = true →
      (indices.filter fun i => decide (i < 1 ∨ ((get_all_tasks store user).length : Int) < i)) ≠ [] →
      handle_clear_task_command store user args =
        (store, .invalidIndices (indices.filter fun i =>
           decide (i < 1 ∨ ((get_all_tasks store user).length : Int) < i))) := by
    intro hemp hne
    have hb : ((indices.filter fun i =>
        decide (i < 1 ∨ ((get_all_tasks store user).length : Int) < i)).isEmpty) = false := by
      simpa [List.isEmpty_iff] using hne
    unfold handle_clear_task_command
    rw [if_neg hargs, if_neg hall, hparse]
    simp [hemp, hb]
    obtain ⟨i, hif⟩ := List.exists_mem_of_ne_nil _ hne
    obtain ⟨hi, hcond⟩ := List.mem_filter.mp hif
    refine ⟨i, hi, fun h1 => ?_⟩
    have hc := of_decide_eq_true hcond
    omega
  refine ⟨?_, hc2, ?_⟩
  · intro hex
    by_cases hemp : (get_all_tasks store user).isEmpty
    · unfold handle_clear_task_command
      rw [if_neg hargs, if_neg hall, hparse]
      simp [hemp]
    · obtain ⟨i, hi, hbad⟩ := hex
      have hmem : i ∈ (indices.filter fun i =>
          decide (i < 1 ∨ ((get_all_tasks store user).length : Int) < i)) :=
        List.mem_filter.mpr ⟨hi, by simpa using hbad⟩
      rw [hc2 hemp (List.ne_nil_of_mem hmem)]
  · intro hinv hemp
    unfold handle_clear_task_command
    rw [if_neg hargs, if_neg hall, hparse]
    simp [hemp, hinv]
    intro x hx
    have hc := (List.filter_eq_nil_iff.mp hinv) x hx
    simp at hc
    omega

/-- The three-task fixture for the bulk-delete example. -/
def clearDemoTask (i : Nat) : Task :=
  { id := i, user_id := 1, title := "t", description := none, deadline := none,
    tags := none, estimated_minutes := none, importance := none, urgency := none,
    reason := none, priority_score := none, status := some "pending", created_at := i }

def clearDemoStore : Store :=
  { tasks := [clearDemoTask 1, clearDemoTask 2, clearDemoTask 3], ideas := [],
    notes := [], nextTaskId := 4, nextIdeaId := 1, nextNoteId := 1, clock := 3 }

/-- Witness for C8: `/clear_task 1,5` with only 3 stored tasks deletes
nothing and reports index 5 as invalid. -/
theorem claim_C8_witness :
    handle_clear_task_command clearDemoStore 1 ["1,5"] =
      (clearDemoStore, .invalidIndices [5]) ∧
    (handle_clear_task_command clearDemoStore 1 ["1,5"]).1 = clearDemoStore := by
  have h := (claim_C8 clearDemoStore 1 ["1,5"] [1, 5] (by decide) (by decide)).2.1
    (by decide) (by decide)
  constructor
  · rw [h]
    decide
  · rw [h]

end SanatAi
